import Mathlib

/-!
Shallow embedding of the booking concurrency-control subsystem of the
mudandmeadows backend (`src/routes/bookings.py`), together with theorems
settling the frozen claims about it.

Conventions of the embedding:
* Python strings are Lean `String`; Python ints are Lean `Int`;
  MongoDB ObjectIds are their 24-hex-digit string form.
* `datetime` values are represented by their proleptic-Gregorian ordinal
  (`PDate.toOrd`, the exact computation of Python's `date.toordinal`);
  `datetime` comparison is ordinal comparison and `timedelta(days=1)` is `+1`.
* BSON values stored in booking documents keep their type tag (`BVal.str`
  versus `BVal.date`): MongoDB's query comparison operators are
  type-bracketed, so `$lt`/`$gt` with a Date operand match only Date-typed
  fields.  `create_booking` inserts `booking_dict` with the *raw string*
  `check_in`/`check_out` (the parsed datetimes are never written back), which
  the embedding records faithfully.
* The store is a record of in-memory lists (`Db`); each endpoint is a pure
  function from request and store to result and updated store, plus an audit
  trace of the lock-manager calls it made.
* Fields of the request/document dictionaries that no modelled operation ever
  reads (guest name, address, price, timestamps, `user_id`, ...) are omitted.
-/

/-- Values of the `accommodation_id` field: the Pydantic model declares it
`Union[str, List[str]]`, so a bare string or a list of strings. -/
inductive AccIds where
  | s (v : String)
  | l (vs : List String)
deriving DecidableEq, Repr

/-- Whether an `accommodation_id` value is a list (not a bare string). -/
def AccIds.isList : AccIds → Bool
  | .s _ => false
  | .l _ => true

/-- Index keys a stored `accommodation_id` value contributes to a multikey
index: an array field indexes each element, a scalar indexes itself. -/
def AccIds.elems : AccIds → List String
  | .s v => [v]
  | .l vs => vs

/-- Lines 108-111 of `bookings.py` (also 298-302): wrap a bare string into a
one-element list, leave a list unchanged. -/
def normalizeAccoms : AccIds → AccIds
  | .s v => .l [v]
  | .l vs => .l vs

/-- BSON-typed value of a stored date field: either a BSON string (what
`create_booking` stores, since `booking_dict` keeps the raw strings) or a
BSON Date carried as a day ordinal (what a legacy writer storing datetimes
would produce). -/
inductive BVal where
  | str (s : String)
  | date (n : Nat)
deriving DecidableEq, Repr

/-- MongoDB `{field: {"$lt": <Date bound>}}`: comparison query operators are
type-bracketed, so a Date operand matches only Date-typed field values. -/
def bsonLtDate : BVal → Nat → Bool
  | .date n, m => n < m
  | .str _, _ => false

/-- MongoDB `{field: {"$gt": <Date bound>}}`, type-bracketed as above. -/
def bsonGtDate : BVal → Nat → Bool
  | .date n, m => m < n
  | .str _, _ => false

/-- An `HTTPException(status_code=..., detail=...)` surfaced to the caller. -/
structure HErr where
  status : Nat
  detail : String
deriving DecidableEq, Repr

/-- The fields of a stored booking document that the modelled operations read. -/
structure BookingDoc where
  id : String
  accommodation_id : AccIds
  check_in : BVal
  check_out : BVal
  status : Option String
deriving DecidableEq, Repr

/-- A per-night occupancy document (lines 217-223 / 264-270 of `bookings.py`). -/
structure OccDoc where
  accommodation_id : AccIds
  date : Nat
  booking_id : String
deriving DecidableEq, Repr

/-- A lease-lock record: key, owner token and expiry instant. -/
structure LockDoc where
  key : String
  owner : String
  expire_at : Nat
deriving DecidableEq, Repr

/-- A room document as read by the capacity check (lines 143-166). -/
structure Room where
  _id : String
  capacity : Option Int
  sleeps : Option Int
  extra_beds : Option Int
  extra_bedding : Option Int
  accommodation_id : Option String
deriving DecidableEq, Repr

/-- An accommodation document as read by the capacity check (lines 149-166). -/
structure Accom where
  _id : String
  capacity : Option Int
  sleeps : Option Int
deriving DecidableEq, Repr

/-- The store: the three collections the subsystem writes plus the two
read-only collections the capacity check consults. -/
structure Db where
  bookings : List BookingDoc
  occupancies : List OccDoc
  locks : List LockDoc
  rooms : List Room
  accommodations : List Accom
deriving DecidableEq, Repr

/-- The fields of `BookingCreateRequest` that the modelled logic reads. -/
structure CreateReq where
  accommodation_id : AccIds
  check_in : String
  check_out : String
  guests : Option Int
  adults : Option Int
  children : Option Int
deriving DecidableEq, Repr

/-- Behaviour of the backing store during the transactional attempt:
`normal` means the store executes the transaction (committing, or raising
`DuplicateKeyError` on a uniqueness violation); `transientError` a
`pymongo.errors.PyMongoError` other than a duplicate key; `otherError` any
other exception.  Both error cases abort the transaction, leaving no writes. -/
inductive TxBehavior where
  | normal
  | transientError
  | otherError
deriving DecidableEq, Repr

/-- Environmental inputs of one `create_booking` run: whether a
transaction-capable client exists and how its store behaves (`none` models
`client is None` / no `start_session`), whether the capacity lookup raises
(collaborator unreachable), the generated `uuid4().hex` owner token, the
`_id` the store assigns on insert, the current instant, and whether the
final `release_lock` call raises. -/
structure Env where
  txAvail : Option TxBehavior
  capacityLookupRaises : Bool
  newOwner : String
  newBookingId : String
  now : Nat
  releaseRaises : Bool
deriving DecidableEq, Repr

/-- Audit trace of the calls `create_booking` makes to the lock manager. -/
inductive Ev where
  | acq (key owner : String) (ttlSeconds : Nat) (timeout : Nat) (granted : Bool)
  | rel (key owner : String)
deriving DecidableEq, Repr

/-- Outcome of a `create_booking` run: the created document or an HTTP error. -/
inductive CbResult where
  | ok (b : BookingDoc)
  | err (e : HErr)
deriving DecidableEq, Repr

/-- Python `int(a or b)` for an optional int `a` and an int `b`: `None` and
`0` are falsy, anything else is returned as is. -/
def pyOrInt (a : Option Int) (b : Int) : Int :=
  match a with
  | some x => if x = 0 then b else x
  | none => b

/-- Lines 131-139: resolve the requested guest count from `guests`, else from
`adults + children` when that sum is positive, else no count. -/
def resolveGuests (guests adults children : Option Int) : Option Int :=
  match guests with
  | some g => some g
  | none =>
    let s := adults.getD 0 + children.getD 0
    if s > 0 then some s else none

/-- Lexicographic order on code-point lists: Python's string `<`. -/
def charListLt : List Char → List Char → Bool
  | [], [] => false
  | [], _ :: _ => true
  | _ :: _, [] => false
  | a :: as, b :: bs =>
    if a < b then true
    else if b < a then false
    else charListLt as bs

/-- Python string comparison `a >= b`, i.e. `not (a < b)` lexicographically
by code point. -/
def strGe (a b : String) : Bool :=
  !charListLt a.toList b.toList

/-- Split a character list on a separator character (Python's
`s.split(sep)` for a one-character separator: adjacent separators produce
empty pieces). -/
def splitOnChar (sep : Char) (cs : List Char) : List (List Char) :=
  match cs with
  | [] => [[]]
  | c :: rest =>
    let tail := splitOnChar sep rest
    if c = sep then [] :: tail
    else
      match tail with
      | piece :: more => (c :: piece) :: more
      | [] => [[c]]

/-- Decimal value of an all-digit character list. -/
def digitsToNat (cs : List Char) : Nat :=
  cs.foldl (fun n c => n * 10 + (c.toNat - '0'.toNat)) 0

/-- Whether a character is a hexadecimal digit (either case). -/
def isHexChar (c : Char) : Bool :=
  c.isDigit || (('a' ≤ c && c ≤ 'f') || ('A' ≤ c && c ≤ 'F'))

/-- `bson.ObjectId(s)` on a string succeeds exactly on 24 hex digits; the
result is modelled as the (validated) hex string itself. -/
def parseObjectId (s : String) : Option String :=
  if s.length = 24 && s.toList.all isHexChar then some s else none

/-- A calendar date as parsed from a `YYYY-MM-DD` string. -/
structure PDate where
  y : Nat
  m : Nat
  d : Nat
deriving DecidableEq, Repr

/-- Gregorian leap-year rule (as used by Python's `calendar`/`datetime`). -/
def isLeap (y : Nat) : Bool :=
  y % 4 = 0 && (y % 100 ≠ 0 || y % 400 = 0)

/-- Number of days in month `m` of year `y`. -/
def daysInMonth (y m : Nat) : Nat :=
  if m = 2 then (if isLeap y then 29 else 28)
  else if m = 4 || m = 6 || m = 9 || m = 11 then 30
  else 31

/-- Days in the months of year `y` strictly before month `m`. -/
def daysBeforeMonth (y m : Nat) : Nat :=
  (List.range' 1 (m - 1)).foldl (fun acc k => acc + daysInMonth y k) 0

/-- Python's `date.toordinal()`: day number of the proleptic Gregorian
calendar, with 0001-01-01 as day 1. -/
def PDate.toOrd (p : PDate) : Nat :=
  365 * (p.y - 1) + (p.y - 1) / 4 - (p.y - 1) / 100 + (p.y - 1) / 400
    + daysBeforeMonth p.y p.m + p.d

/-- `datetime.strptime(s, "%Y-%m-%d")` followed by the `datetime` constructor
checks, as an option: CPython's `_strptime` compiles `%Y` to exactly four
digits, `%m` to `1[0-2]|0[1-9]|[1-9]` and `%d` to `3[01]|[12]\d|0[1-9]|[1-9]`,
requires the `-` literals and a full match, and the constructor then requires
`MINYEAR <= year` and a day valid for the month. -/
def parseDate (s : String) : Option PDate :=
  match splitOnChar '-' s.toList with
  | [ys, ms, ds] =>
    if ys.length = 4 && ys.all Char.isDigit
        && 1 ≤ ms.length && ms.length ≤ 2 && ms.all Char.isDigit
        && 1 ≤ ds.length && ds.length ≤ 2 && ds.all Char.isDigit then
      let y := digitsToNat ys
      let m := digitsToNat ms
      let d := digitsToNat ds
      if 1 ≤ y && 1 ≤ m && m ≤ 12 && 1 ≤ d && d ≤ daysInMonth y m then
        some ⟨y, m, d⟩
      else none
    else none
  | _ => none

/-- Left-pad the decimal form of `n` with zeros to width `w`. -/
def padNum (w n : Nat) : String :=
  let s := toString n
  String.mk (List.replicate (w - s.length) '0') ++ s

/-- `datetime(y, m, d).isoformat()`, i.e. `YYYY-MM-DDT00:00:00`. -/
def PDate.iso (p : PDate) : String :=
  padNum 4 p.y ++ "-" ++ padNum 2 p.m ++ "-" ++ padNum 2 p.d ++ "T00:00:00"

/-- The single-quote character (code point 39), as a one-character string. -/
def squote : String := String.mk [Char.ofNat 39]

/-- Python `str(...)` of an `accommodation_id` value: `repr` of a list of
strings uses brackets and single quotes, a bare string prints as itself. -/
def pyStrOfAccIds : AccIds → String
  | .s v => v
  | .l vs => "[" ++ String.intercalate ", " (vs.map (fun v => squote ++ v ++ squote)) ++ "]"

/-- Line 206: the lock key, an f-string interpolating the normalized
accommodation value and the two parsed dates in `isoformat` between the
literal pieces `accom:` and `:` separators. -/
def mkLockKey (accIds : AccIds) (start_date end_date : PDate) : String :=
  "accom:" ++ pyStrOfAccIds accIds ++ ":" ++ start_date.iso ++ ":" ++ end_date.iso

/-- Fuelled transcription of the nights loop, lines 197-201:
`while d < end_date: nights.append(d); d += timedelta(days=1)`. -/
def buildNightsFuel : Nat → Nat → Nat → List Nat
  | 0, _, _ => []
  | fuel + 1, d, e => if d < e then d :: buildNightsFuel fuel (d + 1) e else []

/-- The materialized list of night ordinals in `[start, end)`; fuel
`e - d` bounds the loop exactly. -/
def buildNights (d e : Nat) : List Nat :=
  buildNightsFuel (e - d) d e

/-- Modelled from the spec: the per-(resource, night) uniqueness constraint on
the `occupancies` collection (spec §3, §4.2, §4.3); the index creation lives in
database-setup code that is not under `src/`.  An insert of `d` violates the
constraint when some existing record covers the same calendar night and shares
a resource (the index on the array field is multikey, one key per element). -/
def occConflicts (existing : List OccDoc) (d : OccDoc) : Bool :=
  existing.any (fun o =>
    o.date = d.date && d.accommodation_id.elems.any (fun r => o.accommodation_id.elems.contains r))

/-- `insert_many(docs, ordered=True)` without a session: documents are
inserted one at a time in order; the first uniqueness violation stops the
batch, leaving the earlier documents persisted.  Returns the resulting
collection and whether the whole batch succeeded. -/
def insertOccsOrdered (existing : List OccDoc) (docs : List OccDoc) : List OccDoc × Bool :=
  match docs with
  | [] => (existing, true)
  | d :: rest =>
    if occConflicts existing d then (existing, false)
    else insertOccsOrdered (existing ++ [d]) rest

/-- Modelled from the spec: `acquire_lock` of `resort_backend/lib/locks.py` is
not under `src/`.  Spec §4.1: atomically create the lock record for `key` only
if none exists or the existing one's expiry has passed, with expiry
`now + ttl`; if the key stays held by a live owner for the whole timeout
window, return busy (`None`).  The retry loop is atemporal here: a live
foreign lock means busy. -/
def acquireLock (locks : List LockDoc) (key owner : String) (ttlSeconds now : Nat) :
    Option String × List LockDoc :=
  match locks.find? (fun l => l.key = key) with
  | some l =>
    if now < l.expire_at then (none, locks)
    else (some owner, ⟨key, owner, now + ttlSeconds⟩ :: locks.filter (fun l2 => l2.key ≠ key))
  | none => (some owner, ⟨key, owner, now + ttlSeconds⟩ :: locks)

/-- Modelled from the spec: `release_lock` of `resort_backend/lib/locks.py` is
not under `src/`.  Spec §4.1: delete the lock record only if its current owner
token matches; a mismatch or absence is a silent no-op. -/
def releaseLock (locks : List LockDoc) (key owner : String) : List LockDoc :=
  locks.filter (fun l => !(l.key = key && l.owner = owner))

/-- MongoDB equality match of a stored `accommodation_id` against a query
operand: an array operand matches an array field by exact equality (an array
element that is itself an array cannot occur for string lists); a scalar
operand matches an equal scalar field or an array field containing it. -/
def accQueryMatch (stored q : AccIds) : Bool :=
  match q with
  | .l _ => stored = q
  | .s v =>
    match stored with
    | .s w => w = v
    | .l vs => vs.contains v

/-- Lines 252-257: the post-acquisition re-check
`find_one({"accommodation_id": acc, "status": {"$ne": "cancelled"},
"check_in": {"$lt": check_out_dt}, "check_out": {"$gt": check_in_dt}})`.
The `$ne` condition also matches documents missing the field; the date bounds
are BSON Dates, so the type-bracketed comparisons match only Date-typed
stored fields. -/
def overlapQueryMatch (accQ : AccIds) (ciOrd coOrd : Nat) (b : BookingDoc) : Bool :=
  accQueryMatch b.accommodation_id accQ
    && b.status ≠ some "cancelled"
    && bsonLtDate b.check_in coOrd
    && bsonGtDate b.check_out ciOrd

/-- Line 143: `db["rooms"].find_one({"_id": acc_ids})`.  The operand is the
normalized accommodation value; an array operand can never equal a scalar
`_id` (and `_id` cannot itself be an array), so a list finds nothing. -/
def findRoomByIdVal (rooms : List Room) (q : AccIds) : Option Room :=
  match q with
  | .s v => rooms.find? (fun r => r._id = v)
  | .l _ => none

/-- Lines 148-149: `ObjectId(acc_ids)` — succeeds only on a 24-hex string;
on a list it raises `TypeError` (caught by the surrounding `except`). -/
def objectIdOfAccIds : AccIds → Option String
  | .s v => parseObjectId v
  | .l _ => none

/-- Lines 149-151: `accommodations.find_one({"_id": ...})` with either the
`ObjectId` (its hex form here) or the raw value as operand. -/
def findAccomByIdVal (accoms : List Accom) (q : AccIds) : Option Accom :=
  match q with
  | .s v => accoms.find? (fun a => a._id = v)
  | .l _ => none

/-- Per-room capacity term of line 165: `int(r.get("capacity") or r.get("sleeps") or 0)`. -/
def roomCap (r : Room) : Int :=
  pyOrInt r.capacity (pyOrInt r.sleeps 0)

/-- Lines 143-170: resolve `total_cap` for the (already normalized)
accommodation value.  Because the lookups use the normalized list as the `_id`
operand, both `find_one` calls find nothing for every request reaching this
code, leaving `total_cap = 0`; the scalar branches transcribe the remaining
source for completeness.  The `allow_extra_beds` branch (lines 172-174) is
statically skipped: `BookingCreateRequest` declares no such field, so
`booking_dict.get("allow_extra_beds")` is `None`. -/
def capacityOf (db : Db) (accIds : AccIds) : Int :=
  match findRoomByIdVal db.rooms accIds with
  | some room => roomCap room
  | none =>
    let acc :=
      match objectIdOfAccIds accIds with
      | some oid => db.accommodations.find? (fun (a : Accom) => a._id = oid)
      | none => findAccomByIdVal db.accommodations accIds
    match acc with
    | some a =>
      let base := pyOrInt a.capacity (pyOrInt a.sleeps 0)
      let rms := db.rooms.filter (fun (r : Room) => r.accommodation_id = some a._id)
      if rms.isEmpty then base else rms.foldl (fun s r => s + roomCap r) 0
    | none => 0

/-- Lines 140-182: the best-effort capacity check.  When the guest count is
resolvable, either the lookup raises (collaborator unreachable) and the whole
block is swallowed by `except Exception: pass`, or the count is compared with
the resolved capacity and an `HTTPException(400, ...)` is raised (and
re-raised by `except HTTPException: raise`) when it exceeds it. -/
def capacityCheck (db : Db) (accIds : AccIds) (guestsReq : Option Int)
    (lookupRaises : Bool) : Option HErr :=
  match guestsReq with
  | none => none
  | some g =>
    if lookupRaises then none
    else
      let cap := capacityOf db accIds
      if g > cap then
        some ⟨400, "Selected accommodation does not accommodate " ++ toString g
          ++ " guests; capacity is " ++ toString cap⟩
      else none

/-- The booking document `insert_one` persists: `booking_dict` with the
normalized accommodation list and the *raw string* dates (lines 105-111; the
parsed datetimes of lines 186-187 are never written back), no `status` key,
and the store-assigned `_id`. -/
def mkBookingDoc (req : CreateReq) (accIds : AccIds) (newId : String) : BookingDoc :=
  { id := newId
    accommodation_id := accIds
    check_in := .str req.check_in
    check_out := .str req.check_out
    status := none }

/-- Lines 216-223 / 263-270: one occupancy document per materialized night,
each carrying the whole normalized accommodation value. -/
def mkOccDocs (accIds : AccIds) (nights : List Nat) (newId : String) : List OccDoc :=
  nights.map (fun nd => { accommodation_id := accIds, date := nd, booking_id := newId })

/-- Lines 240-282: the lock-guarded fallback path, entered when the
transactional path did not produce `created`.  Acquire the lease lock with
`ttl_seconds=30, timeout=5.0`; on failure surface 409 busy.  Inside the lock:
overlap re-check (409 on a match), insert the booking, bulk-insert the
occupancy documents; on bulk-insert failure delete the just-inserted booking
and surface 409.  The `finally` block always attempts `release_lock`,
swallowing any exception it raises. -/
def lockPathRun (db : Db) (req : CreateReq) (env : Env) (accIds : AccIds)
    (ciOrd coOrd : Nat) (nights : List Nat) (lockKey : String) :
    CbResult × Db × List Ev :=
  match acquireLock db.locks lockKey env.newOwner 30 env.now with
  | (none, locks1) =>
    (.err ⟨409, "Accommodation is busy; try again"⟩,
      { db with locks := locks1 },
      [.acq lockKey env.newOwner 30 5 false])
  | (some owner, locks1) =>
    let db1 : Db := { db with locks := locks1 }
    let step : CbResult × Db :=
      match db1.bookings.find? (overlapQueryMatch accIds ciOrd coOrd) with
      | some _ => (.err ⟨409, "Accommodation already booked for the selected dates"⟩, db1)
      | none =>
        let bdoc := mkBookingDoc req accIds env.newBookingId
        let db2 : Db := { db1 with bookings := db1.bookings ++ [bdoc] }
        let occDocs := mkOccDocs accIds nights env.newBookingId
        if occDocs.isEmpty then (.ok bdoc, db2)
        else
          match insertOccsOrdered db2.occupancies occDocs with
          | (occs1, true) => (.ok bdoc, { db2 with occupancies := occs1 })
          | (occs1, false) =>
            (.err ⟨409, "Accommodation already booked for the selected dates"⟩,
              { db2 with
                  occupancies := occs1
                  bookings := db2.bookings.filter (fun b => b.id ≠ env.newBookingId) })
    let db3 := step.2
    let db4 : Db :=
      if env.releaseRaises then db3
      else { db3 with locks := releaseLock db3.locks lockKey owner }
    (step.1, db4, [.acq lockKey env.newOwner 30 5 true, .rel lockKey owner])

/-- Lines 209-237: the transactional attempt.  Under `normal` store behaviour
the transaction commits the booking and every occupancy document, unless some
document violates the uniqueness constraint, in which case `DuplicateKeyError`
aborts the transaction and line 228 surfaces 409.  Any other
`PyMongoError`/exception aborts the transaction and sets `created = None`
(silent fallback). -/
def txPathRun (db : Db) (req : CreateReq) (env : Env) (accIds : AccIds)
    (nights : List Nat) : Option (CbResult × Db × List Ev) :=
  match env.txAvail with
  | none => none
  | some .transientError => none
  | some .otherError => none
  | some .normal =>
    let occDocs := mkOccDocs accIds nights env.newBookingId
    if occDocs.any (occConflicts db.occupancies) then
      some (.err ⟨409, "Accommodation already booked for the selected dates"⟩, db, [])
    else
      let bdoc := mkBookingDoc req accIds env.newBookingId
      some (.ok bdoc,
        { db with
            bookings := db.bookings ++ [bdoc]
            occupancies := db.occupancies ++ occDocs },
        [])

/-- Lines 102-289: `create_booking` as a function of the request, the store
and the environmental inputs.  Returns the caller-visible result, the updated
store, and the audit trace of lock-manager calls. -/
def createBooking (db : Db) (req : CreateReq) (env : Env) : CbResult × Db × List Ev :=
  let accIds := normalizeAccoms req.accommodation_id
  -- line 127: raw string comparison of the date fields
  if strGe req.check_in req.check_out then
    (.err ⟨400, "check_in must be before check_out"⟩, db, [])
  else
    let guestsReq := resolveGuests req.guests req.adults req.children
    match capacityCheck db accIds guestsReq env.capacityLookupRaises with
    | some e => (.err e, db, [])
    | none =>
      match parseDate req.check_in, parseDate req.check_out with
      | some ciD, some coD =>
        if ciD.toOrd ≥ coD.toOrd then
          (.err ⟨400, "check_in must be before check_out"⟩, db, [])
        else
          let nights := buildNights ciD.toOrd coD.toOrd
          let lockKey := mkLockKey accIds ciD coD
          match txPathRun db req env accIds nights with
          | some out => out
          | none => lockPathRun db req env accIds ciD.toOrd coD.toOrd nights lockKey
      | _, _ =>
        (.err ⟨400, "check_in and check_out must be in YYYY-MM-DD format"⟩, db, [])

/-- The caller-visible result of a `create_booking` run. -/
def cbRes (db : Db) (req : CreateReq) (env : Env) : CbResult :=
  (createBooking db req env).1

/-- The store after a `create_booking` run. -/
def cbDb (db : Db) (req : CreateReq) (env : Env) : Db :=
  (createBooking db req env).2.1

/-- The lock-manager audit trace of a `create_booking` run. -/
def cbTrace (db : Db) (req : CreateReq) (env : Env) : List Ev :=
  (createBooking db req env).2.2

/-- Lines 360-369: `release_occupancies_endpoint` — parse the booking id
(400 on an invalid `ObjectId`), then `delete_many({"booking_id": b_id})` and
return the deleted count. -/
def releaseOccupancies (db : Db) (booking_id : String) : Except HErr (Db × Nat) :=
  match parseObjectId booking_id with
  | none => .error ⟨400, "Invalid booking id"⟩
  | some bId =>
    let deleted := (db.occupancies.filter (fun o => o.booking_id = bId)).length
    .ok ({ db with occupancies := db.occupancies.filter (fun o => o.booking_id ≠ bId) }, deleted)

/-- Lines 292-313: `update_booking`, restricted to the one updatable field the
verified invariant concerns.  `update_data` keeps only the non-`None` fields;
when `accommodation_id` is present it is normalized to a list (lines 297-302)
before the `$set`.  An unparseable id raises 400, an unmatched one 404. -/
def updateBooking (db : Db) (booking_id : String) (accUpd : Option AccIds) :
    Except HErr Db :=
  match parseObjectId booking_id with
  | none => .error ⟨400, "Invalid booking id"⟩
  | some bId =>
    if db.bookings.any (fun b => b.id = bId) then
      .ok { db with
        bookings := db.bookings.map (fun b =>
          if b.id = bId then
            match accUpd with
            | some v => { b with accommodation_id := normalizeAccoms v }
            | none => b
          else b) }
    else .error ⟨404, "Booking not found"⟩

/-! ## Helper lemmas -/

/-- Elements produced by the nights loop lie in `[d, e)`. -/
theorem buildNightsFuel_mem_of (fuel : Nat) :
    ∀ d e x, x ∈ buildNightsFuel fuel d e → d ≤ x ∧ x < e := by
  induction fuel with
  | zero => intro d e x h; simp [buildNightsFuel] at h
  | succ n ih =>
    intro d e x h
    simp only [buildNightsFuel] at h
    by_cases hde : d < e
    · simp only [if_pos hde, List.mem_cons] at h
      rcases h with rfl | h
      · omega
      · have := ih (d + 1) e x h
        omega
    · simp [if_neg hde] at h

/-- With enough fuel the nights loop hits every ordinal of `[d, e)`. -/
theorem buildNightsFuel_mem (fuel : Nat) :
    ∀ d e x, e ≤ d + fuel → (x ∈ buildNightsFuel fuel d e ↔ d ≤ x ∧ x < e) := by
  induction fuel with
  | zero =>
    intro d e x h
    simp only [buildNightsFuel, List.not_mem_nil, false_iff]
    omega
  | succ n ih =>
    intro d e x h
    constructor
    · exact buildNightsFuel_mem_of _ d e x
    · intro hx
      simp only [buildNightsFuel]
      have hde : d < e := by omega
      simp only [if_pos hde, List.mem_cons]
      by_cases hxd : x = d
      · exact Or.inl hxd
      · exact Or.inr ((ih (d + 1) e x (by omega)).2 (by omega))

/-- The nights loop produces a strictly increasing list. -/
theorem buildNightsFuel_pairwise (fuel : Nat) :
    ∀ d e, List.Pairwise (· < ·) (buildNightsFuel fuel d e) := by
  induction fuel with
  | zero => intro d e; simp [buildNightsFuel]
  | succ n ih =>
    intro d e
    simp only [buildNightsFuel]
    by_cases hde : d < e
    · simp only [if_pos hde]
      refine List.Pairwise.cons ?_ (ih (d + 1) e)
      intro x hx
      have := buildNightsFuel_mem_of n (d + 1) e x hx
      omega
    · simp [if_neg hde]

/-- Membership characterization of the materialized night list (claim C4). -/
theorem buildNights_mem (d e x : Nat) : x ∈ buildNights d e ↔ d ≤ x ∧ x < e :=
  buildNightsFuel_mem (e - d) d e x (by omega)

/-- The materialized night list is strictly increasing. -/
theorem buildNights_pairwise (d e : Nat) : List.Pairwise (· < ·) (buildNights d e) :=
  buildNightsFuel_pairwise (e - d) d e

/-- The materialized night list has no duplicate. -/
theorem buildNights_nodup (d e : Nat) : (buildNights d e).Nodup :=
  (buildNights_pairwise d e).imp (fun h => Nat.ne_of_lt h)

/-- Each ordinal of `[d, e)` occurs exactly once in the night list. -/
theorem buildNights_count (d e x : Nat) :
    (buildNights d e).count x = if d ≤ x ∧ x < e then 1 else 0 := by
  by_cases h : d ≤ x ∧ x < e
  · rw [if_pos h]
    exact List.count_eq_one_of_mem (buildNights_nodup d e) ((buildNights_mem d e x).2 h)
  · rw [if_neg h]
    exact List.count_eq_zero_of_not_mem (fun hm => h ((buildNights_mem d e x).1 hm))

/-- A fully successful ordered bulk insert appends the whole batch. -/
theorem insertOccsOrdered_true :
    ∀ (docs existing res : List OccDoc), insertOccsOrdered existing docs = (res, true) →
      res = existing ++ docs := by
  intro docs
  induction docs with
  | nil => intro ex res h; simp [insertOccsOrdered] at h; simp [h.symm]
  | cons d rest ih =>
    intro ex res h
    simp only [insertOccsOrdered] at h
    by_cases hc : occConflicts ex d
    · simp [hc] at h
    · simp only [if_neg hc] at h
      have := ih (ex ++ [d]) res h
      simp [this]

/-- A failing ordered bulk insert leaves exactly the documents before the
first violating one persisted: the store becomes the old contents plus a
proper prefix of the batch. -/
theorem insertOccsOrdered_false :
    ∀ (docs existing res : List OccDoc), insertOccsOrdered existing docs = (res, false) →
      ∃ k, k < docs.length ∧ res = existing ++ docs.take k := by
  intro docs
  induction docs with
  | nil => intro ex res h; simp [insertOccsOrdered] at h
  | cons d rest ih =>
    intro ex res h
    simp only [insertOccsOrdered] at h
    by_cases hc : occConflicts ex d
    · refine ⟨0, by simp, ?_⟩
      simp only [if_pos hc, Prod.mk.injEq, and_true] at h
      simp [h.symm]
    · simp only [if_neg hc] at h
      obtain ⟨k, hk, hres⟩ := ih (ex ++ [d]) res h
      refine ⟨k + 1, by simpa using hk, ?_⟩
      simp [hres, List.take_succ_cons]

/-- Every error the capacity check raises has HTTP status 400. -/
theorem capacityCheck_status (db : Db) (a : AccIds) (g : Option Int) (r : Bool)
    (e : HErr) (h : capacityCheck db a g r = some e) : e.status = 400 := by
  unfold capacityCheck at h
  cases g with
  | none => simp at h
  | some v =>
    cases r with
    | true => simp at h
    | false =>
      simp only [Bool.false_eq_true, if_false] at h
      by_cases hv : v > capacityOf db a
      · simp only [if_pos hv, Option.some_inj] at h
        rw [← h]
      · simp [if_neg hv] at h

/-! ## Symbolic execution lemmas for `createBooking` -/


theorem acquireLock_some (locks : List LockDoc) (key owner : String) (ttl now : Nat)
    (o : String) (l1 : List LockDoc) (h : acquireLock locks key owner ttl now = (some o, l1)) :
    o = owner := by
  unfold acquireLock at h
  rcases hf : locks.find? (fun l => l.key = key) with _ | l
  · rw [hf] at h; simp at h; exact h.1.symm
  · rw [hf] at h
    by_cases he : now < l.expire_at
    · simp [he] at h
    · simp [he] at h; exact h.1.symm

theorem lockPathRun_release_invariant (db : Db) (req : CreateReq) (env : Env)
    (a : AccIds) (ci co : Nat) (nights : List Nat) (key : String) (r : Bool) :
    ((lockPathRun db req { env with releaseRaises := r } a ci co nights key).1
      = (lockPathRun db req env a ci co nights key).1)
    ∧ ((lockPathRun db req { env with releaseRaises := r } a ci co nights key).2.2
      = (lockPathRun db req env a ci co nights key).2.2) := by
  unfold lockPathRun
  dsimp only
  rcases hA : acquireLock db.locks key env.newOwner 30 env.now with ⟨o, l1⟩
  cases o <;> simp [hA]

theorem lockPathRun_trace_shape (db : Db) (req : CreateReq) (env : Env)
    (a : AccIds) (ci co : Nat) (nights : List Nat) (key : String) :
    ∀ k o t tmo g, Ev.acq k o t tmo g ∈ (lockPathRun db req env a ci co nights key).2.2 →
      t = 30 ∧ tmo = 5 ∧ k = key ∧ o = env.newOwner := by
  intro k o t tmo g h
  unfold lockPathRun at h
  rcases hA : acquireLock db.locks key env.newOwner 30 env.now with ⟨ores, l1⟩
  rw [hA] at h
  cases ores with
  | none =>
    simp at h
    exact ⟨h.2.2.1, h.2.2.2.1, h.1, h.2.1⟩
  | some ow =>
    simp at h
    exact ⟨h.2.2.1, h.2.2.2.1, h.1, h.2.1⟩

theorem lockPathRun_busy (db : Db) (req : CreateReq) (env : Env)
    (a : AccIds) (ci co : Nat) (nights : List Nat) (key : String)
    (k o : String) (t tmo : Nat)
    (h : Ev.acq k o t tmo false ∈ (lockPathRun db req env a ci co nights key).2.2) :
    (lockPathRun db req env a ci co nights key).1
        = .err ⟨409, "Accommodation is busy; try again"⟩
      ∧ (lockPathRun db req env a ci co nights key).2.1.bookings = db.bookings
      ∧ (lockPathRun db req env a ci co nights key).2.1.occupancies = db.occupancies := by
  unfold lockPathRun at h ⊢
  set A := acquireLock db.locks key env.newOwner 30 env.now with hA
  clear_value A
  rcases A with ⟨ores, l1⟩
  cases ores with
  | none => simp
  | some ow => simp at h

theorem lockPathRun_rel (db : Db) (req : CreateReq) (env : Env)
    (a : AccIds) (ci co : Nat) (nights : List Nat) (key : String)
    (k o : String) (t tmo : Nat)
    (h : Ev.acq k o t tmo true ∈ (lockPathRun db req env a ci co nights key).2.2) :
    Ev.rel k o ∈ (lockPathRun db req env a ci co nights key).2.2 := by
  unfold lockPathRun at h ⊢
  set A := acquireLock db.locks key env.newOwner 30 env.now with hA
  clear_value A
  rcases A with ⟨ores, l1⟩
  cases ores with
  | none => simp at h
  | some ow =>
    have how : ow = env.newOwner :=
      acquireLock_some db.locks key env.newOwner 30 env.now ow l1 hA.symm
    simp at h
    simp [h.1, h.2.1, how]

theorem lockPathRun_ok (db : Db) (req : CreateReq) (env : Env)
    (a : AccIds) (ci co : Nat) (nights : List Nat) (key : String) (b : BookingDoc)
    (h : (lockPathRun db req env a ci co nights key).1 = .ok b) :
    b = mkBookingDoc req a env.newBookingId
      ∧ (lockPathRun db req env a ci co nights key).2.1.occupancies
          = db.occupancies ++ mkOccDocs a nights env.newBookingId
      ∧ (lockPathRun db req env a ci co nights key).2.1.bookings = db.bookings ++ [b] := by
  unfold lockPathRun at h ⊢
  set A := acquireLock db.locks key env.newOwner 30 env.now with hA
  clear_value A
  rcases A with ⟨ores, l1⟩
  cases ores with
  | none => simp at h
  | some ow =>
    dsimp only at h ⊢
    set F := db.bookings.find? (overlapQueryMatch a ci co) with hF
    clear_value F
    rcases F with _ | bk
    · set D := mkOccDocs a nights env.newBookingId with hD
      by_cases hE : D.isEmpty = true
      · rw [if_pos hE] at h ⊢
        have hnil : D = [] := List.isEmpty_iff.1 hE
        cases hR : env.releaseRaises <;> simp_all
      · rw [if_neg hE] at h ⊢
        set I := insertOccsOrdered db.occupancies D with hI
        clear_value I
        rcases I with ⟨occs1, ok1⟩
        cases ok1 with
        | true =>
          have hacc := insertOccsOrdered_true _ _ _ hI.symm
          cases hR : env.releaseRaises <;> simp_all
        | false => simp at h
    · simp at h

theorem insertOccsOrdered_nil (ex : List OccDoc) : insertOccsOrdered ex [] = (ex, true) := by
  simp [insertOccsOrdered]

theorem lockPathRun_fail (db : Db) (req : CreateReq) (env : Env)
    (a : AccIds) (ci co : Nat) (nights : List Nat) (key : String)
    (hF : db.bookings.find? (overlapQueryMatch a ci co) = none)
    (hfail : (insertOccsOrdered db.occupancies (mkOccDocs a nights env.newBookingId)).2 = false)
    (hacq : (acquireLock db.locks key env.newOwner 30 env.now).1 ≠ none)
    (hfresh : ∀ bk ∈ db.bookings, bk.id ≠ env.newBookingId) :
    (lockPathRun db req env a ci co nights key).1
        = .err ⟨409, "Accommodation already booked for the selected dates"⟩
      ∧ (lockPathRun db req env a ci co nights key).2.1.bookings = db.bookings
      ∧ ∃ k, k < (mkOccDocs a nights env.newBookingId).length ∧
          (lockPathRun db req env a ci co nights key).2.1.occupancies
            = db.occupancies ++ (mkOccDocs a nights env.newBookingId).take k := by
  unfold lockPathRun
  set A := acquireLock db.locks key env.newOwner 30 env.now with hA
  clear_value A
  rcases A with ⟨ores, l1⟩
  cases ores with
  | none => simp at hacq
  | some ow =>
    dsimp only
    rw [hF]
    have hE : (mkOccDocs a nights env.newBookingId).isEmpty = false := by
      rcases hD : mkOccDocs a nights env.newBookingId with _ | ⟨d0, ds⟩
      · rw [hD] at hfail
        rw [insertOccsOrdered_nil] at hfail
        simp at hfail
      · simp
    rw [if_neg (by simp [hE])]
    set I := insertOccsOrdered db.occupancies (mkOccDocs a nights env.newBookingId) with hI
    clear_value I
    rcases I with ⟨occs1, ok1⟩
    cases ok1 with
    | true => simp at hfail
    | false =>
      obtain ⟨k, hk, hocc⟩ := insertOccsOrdered_false _ _ _ hI.symm
      have hfilter : (db.bookings ++ [mkBookingDoc req a env.newBookingId]).filter
          (fun b => b.id ≠ env.newBookingId) = db.bookings := by
        rw [List.filter_append]
        have h1 : db.bookings.filter (fun b => decide (b.id ≠ env.newBookingId)) = db.bookings :=
          List.filter_eq_self.2 (fun b hb => by simpa using hfresh b hb)
        have h2 : ([mkBookingDoc req a env.newBookingId]).filter
            (fun b => decide (b.id ≠ env.newBookingId)) = [] := by
          simp [mkBookingDoc]
        simp only [h1, h2, List.append_nil]
      cases hR : env.releaseRaises <;>
        exact ⟨rfl, by simpa using hfilter, k, hk, by simpa using hocc⟩

theorem lockPathRun_bookings (db : Db) (req : CreateReq) (env : Env)
    (a : AccIds) (ci co : Nat) (nights : List Nat) (key : String) :
    ∀ bk ∈ (lockPathRun db req env a ci co nights key).2.1.bookings,
      bk ∈ db.bookings ∨ bk = mkBookingDoc req a env.newBookingId := by
  intro bk hbk
  unfold lockPathRun at hbk
  set A := acquireLock db.locks key env.newOwner 30 env.now with hA
  clear_value A
  rcases A with ⟨ores, l1⟩
  cases ores with
  | none => exact Or.inl (by simpa using hbk)
  | some ow =>
    dsimp only at hbk
    set F := db.bookings.find? (overlapQueryMatch a ci co) with hF
    clear_value F
    rcases F with _ | fnd
    · set D := mkOccDocs a nights env.newBookingId with hD
      by_cases hE : D.isEmpty = true
      · rw [if_pos hE] at hbk
        cases hR : env.releaseRaises <;> simp_all
      · rw [if_neg hE] at hbk
        set I := insertOccsOrdered db.occupancies D with hI
        clear_value I
        rcases I with ⟨occs1, ok1⟩
        cases ok1 with
        | true => cases hR : env.releaseRaises <;> simp_all
        | false =>
          cases hR : env.releaseRaises <;> simp_all [List.mem_filter] <;> tauto
    · cases hR : env.releaseRaises <;> simp_all

theorem txPathRun_shape (db : Db) (req : CreateReq) (env : Env) (a : AccIds)
    (nights : List Nat) (out : CbResult × Db × List Ev)
    (h : txPathRun db req env a nights = some out) :
    out = (.err ⟨409, "Accommodation already booked for the selected dates"⟩, db, [])
    ∨ out = (.ok (mkBookingDoc req a env.newBookingId),
        { db with bookings := db.bookings ++ [mkBookingDoc req a env.newBookingId],
                  occupancies := db.occupancies ++ mkOccDocs a nights env.newBookingId }, []) := by
  unfold txPathRun at h
  rcases htx : env.txAvail with _ | b
  · rw [htx] at h; simp at h
  · rw [htx] at h
    cases b with
    | transientError => simp at h
    | otherError => simp at h
    | normal =>
      by_cases hc : (mkOccDocs a nights env.newBookingId).any (occConflicts db.occupancies) = true
      · rw [if_pos hc] at h
        simp at h
        exact Or.inl h.symm
      · rw [if_neg hc] at h
        simp at h
        exact Or.inr h.symm

theorem createBooking_release_invariant (db : Db) (req : CreateReq) (env : Env) (r : Bool) :
    ((createBooking db req { env with releaseRaises := r }).1 = (createBooking db req env).1)
    ∧ ((createBooking db req { env with releaseRaises := r }).2.2
        = (createBooking db req env).2.2) := by
  unfold createBooking
  dsimp only
  cases hs : strGe req.check_in req.check_out with
  | true => simp [hs]
  | false =>
    simp only [hs, Bool.false_eq_true, if_false]
    cases hc : capacityCheck db (normalizeAccoms req.accommodation_id)
        (resolveGuests req.guests req.adults req.children) env.capacityLookupRaises with
    | some e => simp [hc]
    | none =>
      simp only [hc]
      cases hci : parseDate req.check_in with
      | none => simp [hci]
      | some ciD =>
        cases hco : parseDate req.check_out with
        | none => simp [hci, hco]
        | some coD =>
          simp only [hci, hco]
          by_cases hord : ciD.toOrd ≥ coD.toOrd
          · simp [hord]
          · simp only [if_neg hord]
            have htx : txPathRun db req { env with releaseRaises := r }
                  (normalizeAccoms req.accommodation_id) (buildNights ciD.toOrd coD.toOrd)
                = txPathRun db req env (normalizeAccoms req.accommodation_id)
                    (buildNights ciD.toOrd coD.toOrd) := rfl
            rw [htx]
            cases htxv : txPathRun db req env (normalizeAccoms req.accommodation_id)
                (buildNights ciD.toOrd coD.toOrd) with
            | some out => simp
            | none =>
              simpa using lockPathRun_release_invariant db req env
                (normalizeAccoms req.accommodation_id) ciD.toOrd coD.toOrd
                (buildNights ciD.toOrd coD.toOrd)
                (mkLockKey (normalizeAccoms req.accommodation_id) ciD coD) r

theorem createBooking_to_paths (db : Db) (req : CreateReq) (env : Env) (ciD coD : PDate)
    (h1 : strGe req.check_in req.check_out = false)
    (h2 : capacityCheck db (normalizeAccoms req.accommodation_id)
        (resolveGuests req.guests req.adults req.children) env.capacityLookupRaises = none)
    (h3 : parseDate req.check_in = some ciD)
    (h4 : parseDate req.check_out = some coD)
    (h5 : ¬ ciD.toOrd ≥ coD.toOrd) :
    createBooking db req env
      = match txPathRun db req env (normalizeAccoms req.accommodation_id)
            (buildNights ciD.toOrd coD.toOrd) with
        | some out => out
        | none => lockPathRun db req env (normalizeAccoms req.accommodation_id) ciD.toOrd coD.toOrd
            (buildNights ciD.toOrd coD.toOrd)
            (mkLockKey (normalizeAccoms req.accommodation_id) ciD coD) := by
  unfold createBooking
  simp only [h1, Bool.false_eq_true, if_false, h2, h3, h4, if_neg h5]

theorem createBooking_err400 (db : Db) (req : CreateReq) (env : Env)
    (h : parseDate req.check_in = none ∨ parseDate req.check_out = none ∨
         (∃ ciD coD, parseDate req.check_in = some ciD ∧ parseDate req.check_out = some coD
            ∧ coD.toOrd ≤ ciD.toOrd)) :
    (∃ d, (createBooking db req env).1 = .err ⟨400, d⟩)
    ∧ (createBooking db req env).2.1 = db
    ∧ (createBooking db req env).2.2 = [] := by
  unfold createBooking
  cases hs : strGe req.check_in req.check_out with
  | true => exact ⟨⟨"check_in must be before check_out", by simp [hs]⟩, by simp [hs], by simp [hs]⟩
  | false =>
    simp only [hs, Bool.false_eq_true, if_false]
    cases hc : capacityCheck db (normalizeAccoms req.accommodation_id)
        (resolveGuests req.guests req.adults req.children) env.capacityLookupRaises with
    | some e =>
      have he : e.status = 400 := capacityCheck_status _ _ _ _ _ hc
      refine ⟨⟨e.detail, by simp [hc]; cases e; simp_all⟩, by simp [hc], by simp [hc]⟩
    | none =>
      simp only [hc]
      rcases h with hci | hco | ⟨ciD, coD, hci, hco, hord⟩
      · cases hco2 : parseDate req.check_out <;>
          exact ⟨⟨"check_in and check_out must be in YYYY-MM-DD format", by simp [hci, hco2]⟩,
            by simp [hci, hco2], by simp [hci, hco2]⟩
      · cases hci2 : parseDate req.check_in <;>
          exact ⟨⟨"check_in and check_out must be in YYYY-MM-DD format", by simp [hci2, hco]⟩,
            by simp [hci2, hco], by simp [hci2, hco]⟩
      · have hge : ciD.toOrd ≥ coD.toOrd := hord
        exact ⟨⟨"check_in must be before check_out", by simp [hci, hco, if_pos hge]⟩,
          by simp [hci, hco, if_pos hge], by simp [hci, hco, if_pos hge]⟩

theorem createBooking_ok_shape (db : Db) (req : CreateReq) (env : Env) (ciD coD : PDate)
    (b : BookingDoc)
    (h3 : parseDate req.check_in = some ciD)
    (h4 : parseDate req.check_out = some coD)
    (hok : (createBooking db req env).1 = .ok b) :
    b = mkBookingDoc req (normalizeAccoms req.accommodation_id) env.newBookingId
    ∧ (createBooking db req env).2.1.occupancies
        = db.occupancies ++ mkOccDocs (normalizeAccoms req.accommodation_id)
            (buildNights ciD.toOrd coD.toOrd) env.newBookingId
    ∧ (createBooking db req env).2.1.bookings = db.bookings ++ [b] := by
  by_cases h1 : strGe req.check_in req.check_out = true
  · unfold createBooking at hok; simp [h1] at hok
  · rw [Bool.not_eq_true] at h1
    cases hc : capacityCheck db (normalizeAccoms req.accommodation_id)
        (resolveGuests req.guests req.adults req.children) env.capacityLookupRaises with
    | some e =>
      unfold createBooking at hok
      simp [h1, hc] at hok
    | none =>
      by_cases h5 : ciD.toOrd ≥ coD.toOrd
      · unfold createBooking at hok
        simp [h1, hc, h3, h4, if_pos h5] at hok
      · have hred := createBooking_to_paths db req env ciD coD h1 hc h3 h4 h5
        rw [hred] at hok ⊢
        cases htxv : txPathRun db req env (normalizeAccoms req.accommodation_id)
            (buildNights ciD.toOrd coD.toOrd) with
        | some out =>
          rw [htxv] at hok
          dsimp only at hok
          rcases txPathRun_shape db req env _ _ out htxv with hsh | hsh
          · rw [hsh] at hok; simp at hok
          · rw [hsh] at hok ⊢
            simp at hok
            simp [hok.symm]
        | none =>
          rw [htxv] at hok
          dsimp only at hok
          exact lockPathRun_ok db req env _ _ _ _ _ b hok

theorem createBooking_bookings_mem (db : Db) (req : CreateReq) (env : Env) :
    ∀ bk ∈ (createBooking db req env).2.1.bookings,
      bk ∈ db.bookings ∨ bk.accommodation_id = normalizeAccoms req.accommodation_id := by
  intro bk hbk
  unfold createBooking at hbk
  cases hs : strGe req.check_in req.check_out with
  | true => simp [hs] at hbk; exact Or.inl hbk
  | false =>
    simp only [hs, Bool.false_eq_true, if_false] at hbk
    cases hc : capacityCheck db (normalizeAccoms req.accommodation_id)
        (resolveGuests req.guests req.adults req.children) env.capacityLookupRaises with
    | some e => simp [hc] at hbk; exact Or.inl hbk
    | none =>
      simp only [hc] at hbk
      cases hci : parseDate req.check_in with
      | none => simp [hci] at hbk; exact Or.inl hbk
      | some ciD =>
        cases hco : parseDate req.check_out with
        | none => simp [hci, hco] at hbk; exact Or.inl hbk
        | some coD =>
          simp only [hci, hco] at hbk
          by_cases h5 : ciD.toOrd ≥ coD.toOrd
          · rw [if_pos h5] at hbk; simp at hbk; exact Or.inl hbk
          · rw [if_neg h5] at hbk
            cases htxv : txPathRun db req env (normalizeAccoms req.accommodation_id)
                (buildNights ciD.toOrd coD.toOrd) with
            | some out =>
              rw [htxv] at hbk
              rcases txPathRun_shape db req env _ _ out htxv with hsh | hsh
              · rw [hsh] at hbk; exact Or.inl hbk
              · rw [hsh] at hbk
                simp at hbk
                rcases hbk with hbk | hbk
                · exact Or.inl hbk
                · exact Or.inr (by simp [hbk, mkBookingDoc])
            | none =>
              rw [htxv] at hbk
              rcases lockPathRun_bookings db req env _ _ _ _ _ bk hbk with hm | hm
              · exact Or.inl hm
              · exact Or.inr (by simp [hm, mkBookingDoc])

theorem createBooking_trace_src (db : Db) (req : CreateReq) (env : Env) :
    (createBooking db req env).2.2 = [] ∨
    ∃ ciD coD, parseDate req.check_in = some ciD ∧ parseDate req.check_out = some coD ∧
      createBooking db req env = lockPathRun db req env (normalizeAccoms req.accommodation_id)
        ciD.toOrd coD.toOrd (buildNights ciD.toOrd coD.toOrd)
        (mkLockKey (normalizeAccoms req.accommodation_id) ciD coD) := by
  unfold createBooking
  cases hs : strGe req.check_in req.check_out with
  | true => exact Or.inl (by simp [hs])
  | false =>
    simp only [hs, Bool.false_eq_true, if_false]
    cases hc : capacityCheck db (normalizeAccoms req.accommodation_id)
        (resolveGuests req.guests req.adults req.children) env.capacityLookupRaises with
    | some e => exact Or.inl (by simp [hc])
    | none =>
      simp only [hc]
      cases hci : parseDate req.check_in with
      | none => exact Or.inl (by simp [hci])
      | some ciD =>
        cases hco : parseDate req.check_out with
        | none => exact Or.inl (by simp [hci, hco])
        | some coD =>
          simp only [hci, hco]
          by_cases h5 : ciD.toOrd ≥ coD.toOrd
          · exact Or.inl (by simp [if_pos h5])
          · rw [if_neg h5]
            cases htxv : txPathRun db req env (normalizeAccoms req.accommodation_id)
                (buildNights ciD.toOrd coD.toOrd) with
            | some out =>
              rcases txPathRun_shape db req env _ _ out htxv with hsh | hsh <;>
                exact Or.inl (by dsimp only; rw [hsh])
            | none =>
              exact Or.inr ⟨ciD, coD, rfl, rfl, by dsimp only⟩

theorem mkOccDocs_countP (a : AccIds) (ci co : Nat) (idv : String) (r : String)
    (hr : r ∈ a.elems) (dd : Nat) :
    (mkOccDocs a (buildNights ci co) idv).countP
        (fun o => o.date == dd && o.accommodation_id.elems.contains r)
      = if ci ≤ dd ∧ dd < co then 1 else 0 := by
  unfold mkOccDocs
  rw [List.countP_map]
  have hcon : a.elems.contains r = true := by
    exact List.elem_eq_true_of_mem hr
  have hcomp : ((fun o : OccDoc => o.date == dd && o.accommodation_id.elems.contains r) ∘
      (fun nd => { accommodation_id := a, date := nd, booking_id := idv })) = (· == dd) := by
    funext nd
    simp [Function.comp, hcon, hr]
  rw [hcomp]
  have : (buildNights ci co).countP (· == dd) = (buildNights ci co).count dd := rfl
  rw [this]
  exact buildNights_count ci co dd

/-! ## Concrete fixtures used by witnesses and counterexamples -/

/-- An empty store. -/
def emptyDb : Db := { bookings := [], occupancies := [], locks := [], rooms := [], accommodations := [] }

/-- A plain reservation request for resource `R1`, 2024-03-01 to 2024-03-03. -/
def sampleReq : CreateReq :=
  { accommodation_id := .s "R1", check_in := "2024-03-01", check_out := "2024-03-03",
    guests := none, adults := none, children := none }

/-- An environment with no transaction-capable client (lock-guarded path). -/
def sampleEnv : Env :=
  { txAvail := none, capacityLookupRaises := false, newOwner := "o1",
    newBookingId := "bbbbbbbbbbbbbbbbbbbbbbbb", now := 1000, releaseRaises := false }

/-- A booking exactly as `create_booking` itself persists one: list-valued
accommodation, string-typed dates, no `status` key. -/
def c1Existing : BookingDoc :=
  { id := "aaaaaaaaaaaaaaaaaaaaaaaa", accommodation_id := .l ["R1"],
    check_in := .str "2024-03-01", check_out := .str "2024-03-03", status := none }

/-- A store containing only that prior booking. -/
def c1Db : Db := { emptyDb with bookings := [c1Existing] }

/-- An overlapping request for the same resource, 2024-03-02 to 2024-03-04. -/
def c1Req : CreateReq := { sampleReq with check_in := "2024-03-02", check_out := "2024-03-04" }

/-- A store with a pre-existing occupancy on the second night (ordinal of
2024-03-02) of `sampleReq`, owned by another booking. -/
def c2Db : Db :=
  { emptyDb with
      occupancies := [{ accommodation_id := .l ["R1"], date := 738947,
                        booking_id := "cccccccccccccccccccccccc" }] }

/-- A store whose `rooms` collection holds `R1` with capacity 4. -/
def c3Db : Db :=
  { emptyDb with
      rooms := [{ _id := "R1", capacity := some 4, sleeps := none, extra_beds := none,
                  extra_bedding := none, accommodation_id := none }] }

/-- The spec's capacity scenario: 6 guests on the capacity-4 resource. -/
def c3Req : CreateReq := { sampleReq with guests := some 6 }

/-- An environment whose client supports transactions and whose store behaves
normally during the transactional attempt. -/
def c5Env : Env := { sampleEnv with txAvail := some .normal }

/-- A store holding a live foreign lock on the composite key of `sampleReq`. -/
def c7Db : Db :=
  { emptyDb with
      locks := [{ key := mkLockKey (.l ["R1"]) ⟨2024, 3, 1⟩ ⟨2024, 3, 3⟩,
                  owner := "other", expire_at := 2000 }] }

/-- A store with two occupancies of one booking and one of another. -/
def c9Db : Db :=
  { emptyDb with
      occupancies := [{ accommodation_id := .l ["R1"], date := 738946,
                        booking_id := "cccccccccccccccccccccccc" },
                      { accommodation_id := .l ["R1"], date := 738947,
                        booking_id := "cccccccccccccccccccccccc" },
                      { accommodation_id := .l ["R2"], date := 738946,
                        booking_id := "dddddddddddddddddddddddd" }] }

/-- A store with one legacy booking whose `accommodation_id` is a bare string. -/
def c10Db : Db :=
  { emptyDb with
      bookings := [{ id := "cccccccccccccccccccccccc", accommodation_id := .s "R9",
                     check_in := .str "2024-01-01", check_out := .str "2024-01-02",
                     status := none }] }

/-! ## Claim theorems -/

/-- C1 (code bug): the post-acquisition re-check is supposed to treat an
existing booking as conflicting iff it is non-cancelled, for the same
resource, and satisfies the half-open overlap
`existing.check_in < new.check_out AND existing.check_out > new.check_in`,
and then to surface `ConflictError` with no writes.  On the code this fails:
`create_booking` stores `check_in`/`check_out` as the raw request strings,
while the re-check compares them against `datetime` bounds; MongoDB's
type-bracketed comparison operators never match a string field against a
Date operand, so a booking stored by `create_booking` itself is never seen
by the re-check.  At the concrete input below, the existing booking is
non-cancelled, is for the same resource, and overlaps chronologically
(existing 2024-03-01..2024-03-03, new 2024-03-02..2024-03-04, ordinals
738946 < 738949 and 738948 > 738947), yet the re-check does not match it and
the run writes a second, double-booked record instead of surfacing 409. -/
theorem c1_overlap_recheck_code_bug :
    c1Existing.status ≠ some "cancelled"
    ∧ c1Existing.accommodation_id = normalizeAccoms c1Req.accommodation_id
    ∧ c1Existing.check_in = .str "2024-03-01"
    ∧ c1Existing.check_out = .str "2024-03-03"
    ∧ (parseDate "2024-03-01").map PDate.toOrd = some 738946
    ∧ (parseDate "2024-03-03").map PDate.toOrd = some 738948
    ∧ (parseDate c1Req.check_in).map PDate.toOrd = some 738947
    ∧ (parseDate c1Req.check_out).map PDate.toOrd = some 738949
    ∧ 738946 < 738949 ∧ 738948 > 738947
    ∧ overlapQueryMatch (normalizeAccoms c1Req.accommodation_id) 738947 738949 c1Existing = false
    ∧ cbRes c1Db c1Req sampleEnv
        = .ok (mkBookingDoc c1Req (.l ["R1"]) "bbbbbbbbbbbbbbbbbbbbbbbb")
    ∧ (cbDb c1Db c1Req sampleEnv).bookings.length = 2 := by
  decide

/-- C2 (counterexample): the claim asserts that after a failing occupancy
bulk insert no Booking *and no Occupancy* record persists for the request.
At this concrete input the ordered bulk insert places the first night's
record, fails on the second (pre-existing occupancy on 2024-03-02), the
booking is rolled back and 409 is surfaced — but the first night's occupancy
record for the failed request remains in the store. -/
theorem c2_counterexample :
    cbRes c2Db sampleReq sampleEnv
        = .err ⟨409, "Accommodation already booked for the selected dates"⟩
    ∧ (cbDb c2Db sampleReq sampleEnv).bookings = []
    ∧ (cbDb c2Db sampleReq sampleEnv).occupancies
        = [{ accommodation_id := .l ["R1"], date := 738947,
             booking_id := "cccccccccccccccccccccccc" },
           { accommodation_id := .l ["R1"], date := 738946,
             booking_id := "bbbbbbbbbbbbbbbbbbbbbbbb" }] := by
  decide

/-- C2 (amended): on the lock-guarded path, if the ordered occupancy bulk
insert fails after the Booking record was inserted, `create_booking` deletes
the just-inserted Booking and surfaces `ConflictError` (409); no Booking
record persists for the request, but the occupancy records the ordered bulk
insert placed before the first failing one are not removed: the occupancy
collection ends as its old contents plus a proper prefix of the batch. -/
theorem c2_partial_occupancy_on_rollback (db : Db) (req : CreateReq) (env : Env)
    (ciD coD : PDate)
    (h1 : strGe req.check_in req.check_out = false)
    (h2 : capacityCheck db (normalizeAccoms req.accommodation_id)
        (resolveGuests req.guests req.adults req.children) env.capacityLookupRaises = none)
    (h3 : parseDate req.check_in = some ciD)
    (h4 : parseDate req.check_out = some coD)
    (h5 : ¬ ciD.toOrd ≥ coD.toOrd)
    (htx : env.txAvail = none)
    (hacq : (acquireLock db.locks (mkLockKey (normalizeAccoms req.accommodation_id) ciD coD)
        env.newOwner 30 env.now).1 ≠ none)
    (hF : db.bookings.find? (overlapQueryMatch (normalizeAccoms req.accommodation_id)
        ciD.toOrd coD.toOrd) = none)
    (hfail : (insertOccsOrdered db.occupancies (mkOccDocs (normalizeAccoms req.accommodation_id)
        (buildNights ciD.toOrd coD.toOrd) env.newBookingId)).2 = false)
    (hfresh : ∀ bk ∈ db.bookings, bk.id ≠ env.newBookingId) :
    cbRes db req env = .err ⟨409, "Accommodation already booked for the selected dates"⟩
    ∧ (cbDb db req env).bookings = db.bookings
    ∧ ∃ k, k < (mkOccDocs (normalizeAccoms req.accommodation_id)
          (buildNights ciD.toOrd coD.toOrd) env.newBookingId).length
        ∧ (cbDb db req env).occupancies
            = db.occupancies ++ (mkOccDocs (normalizeAccoms req.accommodation_id)
                (buildNights ciD.toOrd coD.toOrd) env.newBookingId).take k := by
  have hred := createBooking_to_paths db req env ciD coD h1 h2 h3 h4 h5
  have htxn : txPathRun db req env (normalizeAccoms req.accommodation_id)
      (buildNights ciD.toOrd coD.toOrd) = none := by
    unfold txPathRun; rw [htx]
  unfold cbRes cbDb
  rw [hred, htxn]
  exact lockPathRun_fail db req env _ _ _ _ _ hF hfail hacq hfresh

/-- C2 (witness for the amended theorem): the amended statement holds at the
concrete partial-failure input of the counterexample. -/
theorem c2_amended_witness :
    cbRes c2Db sampleReq sampleEnv
        = .err ⟨409, "Accommodation already booked for the selected dates"⟩
    ∧ (cbDb c2Db sampleReq sampleEnv).bookings = c2Db.bookings
    ∧ ∃ k, k < (mkOccDocs (normalizeAccoms sampleReq.accommodation_id)
          (buildNights (PDate.mk 2024 3 1).toOrd (PDate.mk 2024 3 3).toOrd)
          sampleEnv.newBookingId).length
        ∧ (cbDb c2Db sampleReq sampleEnv).occupancies
            = c2Db.occupancies ++ (mkOccDocs (normalizeAccoms sampleReq.accommodation_id)
                (buildNights (PDate.mk 2024 3 1).toOrd (PDate.mk 2024 3 3).toOrd)
                sampleEnv.newBookingId).take k :=
  c2_partial_occupancy_on_rollback c2Db sampleReq sampleEnv ⟨2024, 3, 1⟩ ⟨2024, 3, 3⟩
    (by decide) (by decide) (by decide) (by decide) (by decide) (by decide)
    (by decide) (by decide) (by decide) (by decide)

/-- C3 (counterexample): the claim says a guest count exceeding the resolved
capacity is rejected with `ConflictError`, *distinct from `ValidationError`*.
In the code, scheduling conflicts and lock-busy use HTTP 409 while validation
errors use HTTP 400; the capacity rejection is raised with status 400 — the
same status as validation errors, not a distinct conflict error.  (The
lookup also queries `_id` with the normalized id *list*, so it finds neither
the room nor the accommodation and resolves capacity 0 even though room `R1`
has capacity 4.)  Concretely, the spec scenario — 6 guests on a capacity-4
resource — is rejected before any write, but with status 400, not 409. -/
theorem c3_counterexample :
    cbRes c3Db c3Req sampleEnv
        = .err ⟨400, "Selected accommodation does not accommodate 6 guests; capacity is 0"⟩
    ∧ (400 ≠ 409)
    ∧ cbDb c3Db c3Req sampleEnv = c3Db
    ∧ cbTrace c3Db c3Req sampleEnv = []
    ∧ c3Req.guests = some 6
    ∧ (∃ room ∈ c3Db.rooms, room._id = "R1" ∧ room.capacity = some 4)
    ∧ capacityOf c3Db (normalizeAccoms c3Req.accommodation_id) = 0 := by
  decide

/-- C3 (amended): a reservation request with a resolvable guest count that
exceeds the capacity the code resolves (the lookup uses the normalized id
list as the `_id` operand, so it resolves 0 for every such request) is
rejected before any write and with no lock interaction, but with HTTP 400 —
the same status code the code uses for validation errors, not the 409 used
for scheduling conflicts and lock-busy.  When the capacity lookup raises
(collaborator unreachable), the whole check is swallowed and the reservation
proceeds exactly as if no guest count had been supplied. -/
theorem c3_capacity_rejects_with_http400 :
    (∀ (db : Db) (req : CreateReq) (env : Env) (g : Int),
      resolveGuests req.guests req.adults req.children = some g →
      env.capacityLookupRaises = false →
      g > capacityOf db (normalizeAccoms req.accommodation_id) →
      strGe req.check_in req.check_out = false →
      cbRes db req env = .err ⟨400, "Selected accommodation does not accommodate "
          ++ toString g ++ " guests; capacity is "
          ++ toString (capacityOf db (normalizeAccoms req.accommodation_id))⟩
        ∧ cbDb db req env = db ∧ cbTrace db req env = [])
    ∧ (∀ (db : Db) (req : CreateReq) (env : Env),
        createBooking db req { env with capacityLookupRaises := true }
          = createBooking db { req with guests := none, adults := none, children := none }
              { env with capacityLookupRaises := true }) := by
  constructor
  · intro db req env g hg hr hcap hs
    have hcc : capacityCheck db (normalizeAccoms req.accommodation_id)
        (resolveGuests req.guests req.adults req.children) env.capacityLookupRaises
        = some ⟨400, "Selected accommodation does not accommodate " ++ toString g
            ++ " guests; capacity is "
            ++ toString (capacityOf db (normalizeAccoms req.accommodation_id))⟩ := by
      unfold capacityCheck
      rw [hg, hr]
      simp [if_pos hcap]
    unfold cbRes cbDb cbTrace createBooking
    simp [hs, hcc]
  · intro db req env
    unfold createBooking
    dsimp only
    have h1 : capacityCheck db (normalizeAccoms req.accommodation_id)
        (resolveGuests req.guests req.adults req.children) true = none := by
      unfold capacityCheck
      cases resolveGuests req.guests req.adults req.children <;> simp
    simp only [h1]
    rfl

/-- C3 (witness for the amended theorem): both parts hold at the concrete
capacity scenario. -/
theorem c3_amended_witness :
    (cbRes c3Db c3Req sampleEnv
        = .err ⟨400, "Selected accommodation does not accommodate 6 guests; capacity is 0"⟩
      ∧ cbDb c3Db c3Req sampleEnv = c3Db ∧ cbTrace c3Db c3Req sampleEnv = [])
    ∧ createBooking c3Db c3Req { sampleEnv with capacityLookupRaises := true }
        = createBooking c3Db { c3Req with guests := none, adults := none, children := none }
            { sampleEnv with capacityLookupRaises := true } :=
  ⟨c3_capacity_rejects_with_http400.1 c3Db c3Req sampleEnv 6
      (by decide) (by decide) (by decide) (by decide),
   c3_capacity_rejects_with_http400.2 c3Db c3Req sampleEnv⟩

/-- C4: the materialized night list contains exactly the ordinals `d` with
`check_in <= d < check_out`, each once, in (strictly) increasing order; and
on every successful reservation the occupancy collection grows by exactly
the batch of per-night records, in which, for each resource of the booking
and each calendar night, exactly one record of the batch covers that
(resource, night) pair — one per night of `[check_in, check_out)`, none
outside it. -/
theorem c4_nightly_occupancy_exact :
    (∀ ci co x, x ∈ buildNights ci co ↔ ci ≤ x ∧ x < co)
    ∧ (∀ ci co, List.Pairwise (· < ·) (buildNights ci co))
    ∧ (∀ (db : Db) (req : CreateReq) (env : Env) (ciD coD : PDate) (b : BookingDoc),
        parseDate req.check_in = some ciD → parseDate req.check_out = some coD →
        cbRes db req env = .ok b →
        (cbDb db req env).occupancies
          = db.occupancies ++ mkOccDocs (normalizeAccoms req.accommodation_id)
              (buildNights ciD.toOrd coD.toOrd) env.newBookingId)
    ∧ (∀ (a : AccIds) (ci co : Nat) (idv r : String), r ∈ a.elems → ∀ dd,
        (mkOccDocs a (buildNights ci co) idv).countP
            (fun o => o.date == dd && o.accommodation_id.elems.contains r)
          = if ci ≤ dd ∧ dd < co then 1 else 0) :=
  ⟨fun ci co x => buildNights_mem ci co x,
   fun ci co => buildNights_pairwise ci co,
   fun db req env ciD coD b h3 h4 hok =>
     (createBooking_ok_shape db req env ciD coD b h3 h4 hok).2.1,
   fun a ci co idv r hr dd => mkOccDocs_countP a ci co idv r hr dd⟩

/-- C4 (witness): the parts with hypotheses hold at the concrete successful
run on the empty store and at the concrete night list of 2024-03-01 to
2024-03-03 (ordinals 738946, 738947). -/
theorem c4_witness :
    (738946 ∈ buildNights 738946 738948)
    ∧ ¬ (738948 ∈ buildNights 738946 738948)
    ∧ (cbDb emptyDb sampleReq sampleEnv).occupancies
        = emptyDb.occupancies ++ mkOccDocs (normalizeAccoms sampleReq.accommodation_id)
            (buildNights (PDate.mk 2024 3 1).toOrd (PDate.mk 2024 3 3).toOrd)
            sampleEnv.newBookingId
    ∧ (mkOccDocs (.l ["R1"]) (buildNights 738946 738948) "x").countP
        (fun o => o.date == 738947 && o.accommodation_id.elems.contains "R1") = 1 :=
  ⟨(c4_nightly_occupancy_exact.1 738946 738948 738946).2 (by decide),
   fun hmem => (by decide : ¬ ((738946 : Nat) ≤ 738948 ∧ 738948 < 738948))
     ((c4_nightly_occupancy_exact.1 738946 738948 738948).1 hmem),
   c4_nightly_occupancy_exact.2.2.1 emptyDb sampleReq sampleEnv ⟨2024, 3, 1⟩ ⟨2024, 3, 3⟩
     (mkBookingDoc sampleReq (.l ["R1"]) "bbbbbbbbbbbbbbbbbbbbbbbb")
     (by decide) (by decide) (by decide),
   (c4_nightly_occupancy_exact.2.2.2 (.l ["R1"]) 738946 738948 "x" "R1" (by decide) 738947).trans
     (by decide)⟩

/-- C5: on the transactional path (client with transaction support, store
behaving normally), a uniqueness violation among the occupancy documents
aborts the transaction — leaving the store unchanged — and surfaces 409 to
the caller; whereas a store error other than a duplicate key
(`PyMongoError` or any other exception) is not surfaced: the run is
literally identical to one with no transaction-capable client at all, i.e.
it silently falls back to the lock-guarded path. -/
theorem c5_tx_conflict_409_else_silent_fallback :
    (∀ (db : Db) (req : CreateReq) (env : Env) (ciD coD : PDate),
      strGe req.check_in req.check_out = false →
      capacityCheck db (normalizeAccoms req.accommodation_id)
        (resolveGuests req.guests req.adults req.children) env.capacityLookupRaises = none →
      parseDate req.check_in = some ciD → parseDate req.check_out = some coD →
      ¬ ciD.toOrd ≥ coD.toOrd →
      env.txAvail = some .normal →
      (mkOccDocs (normalizeAccoms req.accommodation_id) (buildNights ciD.toOrd coD.toOrd)
        env.newBookingId).any (occConflicts db.occupancies) = true →
      createBooking db req env
        = (.err ⟨409, "Accommodation already booked for the selected dates"⟩, db, []))
    ∧ (∀ (db : Db) (req : CreateReq) (env : Env),
        createBooking db req { env with txAvail := some .transientError }
          = createBooking db req { env with txAvail := none }
        ∧ createBooking db req { env with txAvail := some .otherError }
          = createBooking db req { env with txAvail := none }) := by
  constructor
  · intro db req env ciD coD h1 h2 h3 h4 h5 htx hconf
    rw [createBooking_to_paths db req env ciD coD h1 h2 h3 h4 h5]
    have htxv : txPathRun db req env (normalizeAccoms req.accommodation_id)
        (buildNights ciD.toOrd coD.toOrd)
        = some (.err ⟨409, "Accommodation already booked for the selected dates"⟩, db, []) := by
      unfold txPathRun
      rw [htx]
      simp [hconf]
    rw [htxv]
  · intro db req env
    exact ⟨rfl, rfl⟩

/-- C5 (witness): the duplicate-key part holds at the concrete store with a
conflicting occupancy, and the silent-fallback part at the sample inputs. -/
theorem c5_witness :
    createBooking c2Db sampleReq c5Env
        = (.err ⟨409, "Accommodation already booked for the selected dates"⟩, c2Db, [])
    ∧ createBooking c2Db sampleReq { sampleEnv with txAvail := some .transientError }
        = createBooking c2Db sampleReq { sampleEnv with txAvail := none } :=
  ⟨c5_tx_conflict_409_else_silent_fallback.1 c2Db sampleReq c5Env ⟨2024, 3, 1⟩ ⟨2024, 3, 3⟩
     (by decide) (by decide) (by decide) (by decide) (by decide) (by decide) (by decide),
   (c5_tx_conflict_409_else_silent_fallback.2 c2Db sampleReq sampleEnv).1⟩

/-- C6: a request whose check-in or check-out string is unparseable as
`YYYY-MM-DD`, or whose parsed check-in does not strictly precede its parsed
check-out, is rejected with an HTTP-400 error (the code's representation of
`ValidationError`) and the store — bookings, occupancies and locks alike —
is left exactly as it was, with no lock-manager interaction. -/
theorem c6_validation_rejects_before_write (db : Db) (req : CreateReq) (env : Env)
    (h : parseDate req.check_in = none ∨ parseDate req.check_out = none ∨
         (∃ ciD coD, parseDate req.check_in = some ciD ∧ parseDate req.check_out = some coD
            ∧ coD.toOrd ≤ ciD.toOrd)) :
    (∃ d, cbRes db req env = .err ⟨400, d⟩)
    ∧ cbDb db req env = db ∧ cbTrace db req env = [] :=
  createBooking_err400 db req env h

/-- A request with an unparseable month (`2024-13-01`). -/
def c6Req : CreateReq := { sampleReq with check_in := "2024-13-01" }

/-- C6 (witness): the rejection-without-side-effects holds at a concrete
malformed request. -/
theorem c6_witness :
    (∃ d, cbRes emptyDb c6Req sampleEnv = .err ⟨400, d⟩)
    ∧ cbDb emptyDb c6Req sampleEnv = emptyDb ∧ cbTrace emptyDb c6Req sampleEnv = [] :=
  c6_validation_rejects_before_write emptyDb c6Req sampleEnv (Or.inl (by decide))

/-- C7: every lock acquisition request `create_booking` issues carries TTL 30
seconds and acquisition timeout 5 seconds and is for the composite key built
from the normalized resource list and the parsed date range; and whenever the
acquisition comes back denied (the key is held by a live owner for the whole
window), the caller receives 409 "busy" and neither a booking nor an
occupancy record is written. -/
theorem c7_lock_params_and_busy (db : Db) (req : CreateReq) (env : Env) (ciD coD : PDate)
    (hci : parseDate req.check_in = some ciD) (hco : parseDate req.check_out = some coD) :
    (∀ k o t tmo g, Ev.acq k o t tmo g ∈ cbTrace db req env →
        t = 30 ∧ tmo = 5
        ∧ k = mkLockKey (normalizeAccoms req.accommodation_id) ciD coD
        ∧ o = env.newOwner)
    ∧ (∀ k o t tmo, Ev.acq k o t tmo false ∈ cbTrace db req env →
        cbRes db req env = .err ⟨409, "Accommodation is busy; try again"⟩
        ∧ (cbDb db req env).bookings = db.bookings
        ∧ (cbDb db req env).occupancies = db.occupancies) := by
  rcases createBooking_trace_src db req env with htr | ⟨ciD', coD', hci', hco', heq⟩
  · constructor
    · intro k o t tmo g hmem
      unfold cbTrace at hmem
      rw [htr] at hmem
      simp at hmem
    · intro k o t tmo hmem
      unfold cbTrace at hmem
      rw [htr] at hmem
      simp at hmem
  · have hc1 : ciD' = ciD := Option.some_inj.mp (hci' ▸ hci)
    have hc2 : coD' = coD := Option.some_inj.mp (hco' ▸ hco)
    subst hc1
    subst hc2
    constructor
    · intro k o t tmo g hmem
      unfold cbTrace at hmem
      rw [heq] at hmem
      exact lockPathRun_trace_shape db req env _ _ _ _ _ k o t tmo g hmem
    · intro k o t tmo hmem
      unfold cbTrace at hmem
      rw [heq] at hmem
      unfold cbRes cbDb
      rw [heq]
      exact lockPathRun_busy db req env _ _ _ _ _ k o t tmo hmem

/-- C7 (witness): at a store holding a live foreign lock on the composite
key, the acquisition is denied and the busy conclusions hold. -/
theorem c7_witness :
    cbRes c7Db sampleReq sampleEnv = .err ⟨409, "Accommodation is busy; try again"⟩
    ∧ (cbDb c7Db sampleReq sampleEnv).bookings = c7Db.bookings
    ∧ (cbDb c7Db sampleReq sampleEnv).occupancies = c7Db.occupancies :=
  (c7_lock_params_and_busy c7Db sampleReq sampleEnv ⟨2024, 3, 1⟩ ⟨2024, 3, 3⟩
      (by decide) (by decide)).2
    (mkLockKey (normalizeAccoms sampleReq.accommodation_id) ⟨2024, 3, 1⟩ ⟨2024, 3, 3⟩)
    "o1" 30 5 (by decide)

/-- C8: the caller-visible result of `create_booking` is identical whether or
not the final `release_lock` call raises (release failures are swallowed and
never change the response); and on every execution in which the lease lock
was granted, a release call for the same key and owner appears in the trace —
the `finally` block attempts the release on success, overlap conflict and
occupancy-insert failure alike. -/
theorem c8_release_on_every_exit (db : Db) (req : CreateReq) (env : Env) :
    cbRes db req { env with releaseRaises := true }
        = cbRes db req { env with releaseRaises := false }
    ∧ (∀ k o t tmo, Ev.acq k o t tmo true ∈ cbTrace db req env →
        Ev.rel k o ∈ cbTrace db req env) := by
  constructor
  · have h1 := (createBooking_release_invariant db req env true).1
    have h2 := (createBooking_release_invariant db req env false).1
    unfold cbRes
    rw [h1, h2]
  · intro k o t tmo hmem
    rcases createBooking_trace_src db req env with htr | ⟨ciD', coD', hci', hco', heq⟩
    · unfold cbTrace at hmem
      rw [htr] at hmem
      simp at hmem
    · unfold cbTrace at hmem ⊢
      rw [heq] at hmem ⊢
      exact lockPathRun_rel db req env _ _ _ _ _ k o t tmo hmem

/-- C8 (witness): on the concrete successful run the granted acquisition is
paired with a release call in the trace. -/
theorem c8_witness :
    Ev.rel (mkLockKey (normalizeAccoms sampleReq.accommodation_id) ⟨2024, 3, 1⟩ ⟨2024, 3, 3⟩)
        "o1" ∈ cbTrace emptyDb sampleReq sampleEnv :=
  (c8_release_on_every_exit emptyDb sampleReq sampleEnv).2
    (mkLockKey (normalizeAccoms sampleReq.accommodation_id) ⟨2024, 3, 1⟩ ⟨2024, 3, 3⟩)
    "o1" 30 5 (by decide)

/-- C9: releasing the occupancies of a booking deletes exactly the occupancy
records owned by that booking identifier and succeeds; afterwards no record
of that booking remains, and a second consecutive call also succeeds as a
no-op affecting zero records — the operation never errors for a valid
booking identifier. -/
theorem c9_release_idempotent (db : Db) (bid bId : String)
    (h : parseObjectId bid = some bId) :
    ∃ db1 n, releaseOccupancies db bid = .ok (db1, n)
      ∧ n = (db.occupancies.filter (fun o => o.booking_id = bId)).length
      ∧ (∀ o ∈ db1.occupancies, o.booking_id ≠ bId)
      ∧ releaseOccupancies db1 bid = .ok (db1, 0) := by
  refine ⟨{ db with occupancies := db.occupancies.filter (fun o => o.booking_id ≠ bId) },
    (db.occupancies.filter (fun o => o.booking_id = bId)).length, ?_, rfl, ?_, ?_⟩
  · unfold releaseOccupancies
    rw [h]
  · intro o ho
    have hm := List.mem_filter.1 ho
    simpa using hm.2
  · unfold releaseOccupancies
    rw [h]
    have hzero : (db.occupancies.filter (fun o => o.booking_id ≠ bId)).filter
        (fun o => o.booking_id = bId) = [] := by
      rw [List.filter_eq_nil_iff]
      intro o ho
      have hm := List.mem_filter.1 ho
      simpa using hm.2
    have hidem : (db.occupancies.filter (fun o => o.booking_id ≠ bId)).filter
        (fun o => o.booking_id ≠ bId) = db.occupancies.filter (fun o => o.booking_id ≠ bId) := by
      rw [List.filter_filter]
      simp
    simp [hzero, hidem]

/-- C9 (witness): at a concrete store with two records of the released
booking and one of another, both calls succeed, the second as a zero-record
no-op. -/
theorem c9_witness :
    ∃ db1 n, releaseOccupancies c9Db "cccccccccccccccccccccccc" = .ok (db1, n)
      ∧ n = (c9Db.occupancies.filter
          (fun o => o.booking_id = "cccccccccccccccccccccccc")).length
      ∧ (∀ o ∈ db1.occupancies, o.booking_id ≠ "cccccccccccccccccccccccc")
      ∧ releaseOccupancies db1 "cccccccccccccccccccccccc" = .ok (db1, 0) :=
  c9_release_idempotent c9Db "cccccccccccccccccccccccc" "cccccccccccccccccccccccc" (by decide)

/-- C10: `accommodation_id` normalization always yields a list; every booking
record present in the store after a `create_booking` run either predates the
run or carries the normalized (hence list-valued) accommodation value; and
every booking record present after an `update_booking` run that supplied an
accommodation value either predates the run or carries that value normalized
to a list — so neither endpoint ever persists a bare-string
`accommodation_id`. -/
theorem c10_accommodation_id_always_list :
    (∀ a : AccIds, (normalizeAccoms a).isList = true)
    ∧ (∀ (db : Db) (req : CreateReq) (env : Env),
        ∀ bk ∈ (cbDb db req env).bookings,
          bk ∈ db.bookings ∨ bk.accommodation_id = normalizeAccoms req.accommodation_id)
    ∧ (∀ (db : Db) (bid : String) (v : AccIds) (db1 : Db),
        updateBooking db bid (some v) = .ok db1 →
        ∀ bk ∈ db1.bookings, bk ∈ db.bookings ∨ bk.accommodation_id = normalizeAccoms v) := by
  refine ⟨?_, ?_, ?_⟩
  · intro a
    cases a <;> rfl
  · intro db req env bk hbk
    exact createBooking_bookings_mem db req env bk hbk
  · intro db bid v db1 hupd bk hbk
    unfold updateBooking at hupd
    cases hp : parseObjectId bid with
    | none => rw [hp] at hupd; simp at hupd
    | some bId =>
      rw [hp] at hupd
      dsimp only at hupd
      by_cases hex : db.bookings.any (fun b => b.id = bId) = true
      · rw [if_pos hex] at hupd
        simp only [Except.ok.injEq] at hupd
        rw [← hupd] at hbk
        simp only at hbk
        obtain ⟨b0, hb0, hfb⟩ := List.mem_map.1 hbk
        by_cases hid : b0.id = bId
        · rw [if_pos hid] at hfb
          exact Or.inr (by rw [← hfb])
        · rw [if_neg hid] at hfb
          exact Or.inl (hfb ▸ hb0)
      · rw [if_neg hex] at hupd
        simp at hupd

/-- The legacy booking of `c10Db` after its accommodation value was updated
to the normalized form of the bare string `R2`. -/
def c10Updated : BookingDoc :=
  { id := "cccccccccccccccccccccccc", accommodation_id := AccIds.l ["R2"],
    check_in := BVal.str "2024-01-01", check_out := BVal.str "2024-01-02",
    status := none }

/-- The store `c10Db` after that update. -/
def c10DbAfter : Db := { c10Db with bookings := [c10Updated] }

/-- C10 (witness): the membership-conditioned parts hold at the concrete
successful creation on the empty store and at a concrete update of the
legacy bare-string booking. -/
theorem c10_witness :
    (mkBookingDoc sampleReq (.l ["R1"]) "bbbbbbbbbbbbbbbbbbbbbbbb"
        ∈ emptyDb.bookings
      ∨ (mkBookingDoc sampleReq (.l ["R1"]) "bbbbbbbbbbbbbbbbbbbbbbbb").accommodation_id
          = normalizeAccoms sampleReq.accommodation_id)
    ∧ (c10Updated ∈ c10Db.bookings ∨ c10Updated.accommodation_id = normalizeAccoms (.s "R2")) :=
  ⟨c10_accommodation_id_always_list.2.1 emptyDb sampleReq sampleEnv
      (mkBookingDoc sampleReq (.l ["R1"]) "bbbbbbbbbbbbbbbbbbbbbbbb") (by decide),
   c10_accommodation_id_always_list.2.2 c10Db "cccccccccccccccccccccccc" (.s "R2")
      c10DbAfter rfl c10Updated (by decide)⟩
